import Mathlib

/-
  Verification development for the finalvidchit repository: a WebRTC
  video-chat client in four duplicated variants
  (src/src/app/page.tsx and src/unnamed/part_000 .. part_002).
  Each variant's socket / RTCPeerConnection event handlers are embedded
  as pure state-transition functions; the RTCPeerConnection itself is
  modelled from its W3C semantics, since it is the external API the
  repository's code drives.
-/

namespace VidChat

/-- Negotiation role token delivered by the start acknowledgment
('p1' = leader, 'p2' = follower). -/
inductive Role
  | p1
  | p2
deriving DecidableEq

/-- A session description payload; `malformed` marks one that the
transport layer rejects when installed. -/
structure SDP where
  content : String
  malformed : Bool
deriving DecidableEq

/-- An ICE candidate payload. -/
structure Candidate where
  value : String
deriving DecidableEq

/-- A local media track, identified by the getUserMedia acquisition that
created it. -/
structure Track where
  id : Nat
deriving DecidableEq

/-- A local media stream as returned by one getUserMedia call. -/
structure MediaStream where
  streamId : Nat
  tracks : List Track
deriving DecidableEq

/-- The transport-layer peer connection (W3C RTCPeerConnection) that the
repository's handlers drive. `appliedCandidates` records accepted
addIceCandidate calls in application order. -/
structure PeerConn where
  remoteDescription : Option SDP := none
  localDescription : Option SDP := none
  appliedCandidates : List Candidate := []
  attachedTracks : List Track := []
deriving DecidableEq

/-- W3C semantics of RTCPeerConnection.addIceCandidate: rejects with
InvalidStateError when no remote description is installed, otherwise
appends the candidate. -/
def PeerConn.addIceCandidate (pc : PeerConn) (c : Candidate) :
    Except String PeerConn :=
  match pc.remoteDescription with
  | none => Except.error ("InvalidStateError")
  | some _ =>
      Except.ok { pc with appliedCandidates := pc.appliedCandidates ++ [c] }

/-- W3C semantics of RTCPeerConnection.setRemoteDescription: rejects a
malformed description, otherwise installs it. -/
def PeerConn.setRemoteDescription (pc : PeerConn) (d : SDP) :
    Except String PeerConn :=
  if d.malformed then Except.error ("InvalidSdp")
  else Except.ok { pc with remoteDescription := some d }

/-- RTCPeerConnection.createAnswer (succeeds once a remote offer is
installed). -/
def PeerConn.createAnswer (_pc : PeerConn) : SDP :=
  { content := "answer", malformed := false }

/-- RTCPeerConnection.createOffer. -/
def PeerConn.createOffer (_pc : PeerConn) : SDP :=
  { content := "offer", malformed := false }

/-- RTCPeerConnection.setLocalDescription with a locally created
offer/answer (always accepted). -/
def PeerConn.setLocalDescription (pc : PeerConn) (d : SDP) : PeerConn :=
  { pc with localDescription := some d }

/-- Messages the client emits on the signaling socket. -/
inductive Msg
  | sdpSend (sdp : SDP)
  | iceSend (candidate : Option Candidate) (target : String)
deriving DecidableEq

/-- getUserMedia: every call acquires a fresh stream with fresh track
identities (one audio, one video), numbered by the acquisition counter. -/
def getUserMedia (acquisition : Nat) : MediaStream :=
  { streamId := acquisition
    tracks := [{ id := 2 * acquisition }, { id := 2 * acquisition + 1 }] }

namespace Page

/-- React state and refs of the component in src/src/app/page.tsx.
`nextStreamId` numbers successive getUserMedia acquisitions so that
distinct acquisitions yield distinct tracks. -/
structure State where
  peer : Option PeerConn := none
  stream : Option MediaStream := none
  remoteSocketId : Option String := none
  userType : Option Role := none
  error : Option String := none
  nextStreamId : Nat := 0
deriving DecidableEq

/-- The start acknowledgment callback, page.tsx lines 152-155:
setUserType(person), unconditionally. -/
def handleStart (s : State) (person : Role) : State :=
  { s with userType := some person }

/-- cleanup, page.tsx lines 39-64: calls stop() on every track of the
current stream, closes and drops the peer connection, clears the remote
id, role and video elements. Returns the new state together with the
list of tracks on which stop() was called. -/
def cleanup (s : State) : State × List Track :=
  ({ s with stream := none, peer := none,
            remoteSocketId := none, userType := none },
   match s.stream with
   | some st => st.tracks
   | none => [])

/-- initializePeerConnection, page.tsx lines 174-253: acquires media via
getUserMedia anew, creates a fresh RTCPeerConnection and attaches the
freshly acquired tracks to it. -/
def initPeerConnection (s : State) : State :=
  let stream := getUserMedia s.nextStreamId
  { s with stream := some stream,
           peer := some { attachedTracks := stream.tracks },
           nextStreamId := s.nextStreamId + 1 }

/-- socket.on('remote-socket'), page.tsx lines 98-102: records the remote
id and immediately calls initializePeerConnection, without waiting for
the local role to be known. -/
def handleRemoteSocket (s : State) (id : String) : State :=
  initPeerConnection { s with remoteSocketId := some id }

/-- peer.onnegotiationneeded, page.tsx lines 233-246: only when
userType === 'p1' does it create an offer, install it as the local
description and emit it; there is no pending-offer guard. -/
def handleNegotiationNeeded (s : State) : State × List Msg :=
  match s.peer with
  | none => (s, [])
  | some pc =>
      if s.userType = some Role.p1 then
        let offer := pc.createOffer
        ({ s with peer := some (pc.setLocalDescription offer) },
         [Msg.sdpSend offer])
      else (s, [])

/-- socket.on('sdp:reply'), page.tsx lines 104-122: installs the remote
description; if userType === 'p2', creates an answer, installs it locally
and emits it; any failure is caught and surfaced via setError. -/
def handleSdpReply (s : State) (sdp : SDP) : State × List Msg :=
  match s.peer with
  | none => (s, [])
  | some pc =>
      match pc.setRemoteDescription sdp with
      | Except.error _ =>
          ({ s with error := some ("Failed to establish connection. Please try again.") }, [])
      | Except.ok pc1 =>
          if s.userType = some Role.p2 then
            let ans := pc1.createAnswer
            ({ s with peer := some (pc1.setLocalDescription ans) },
             [Msg.sdpSend ans])
          else ({ s with peer := some pc1 }, [])

/-- socket.on('ice:reply'), page.tsx lines 124-134: returns without doing
anything when the peer or the candidate is missing; otherwise attempts
addIceCandidate at once and swallows any failure (the candidate is
dropped; nothing is ever buffered for later). -/
def handleIceReply (s : State) (candidate : Option Candidate) : State :=
  match s.peer, candidate with
  | none, _ => s
  | some _, none => s
  | some pc, some c =>
      match pc.addIceCandidate c with
      | Except.ok pc1 => { s with peer := some pc1 }
      | Except.error _ => s

/-- peer.onicecandidate, page.tsx lines 219-224: emits ice:send only when
the discovered candidate is non-null and remoteSocketId is truthy
(non-null and non-empty, by JS truthiness); otherwise the candidate is
silently discarded. The handler keeps no state, so nothing is buffered. -/
def onIceCandidate (s : State) (candidate : Option Candidate) : List Msg :=
  match candidate, s.remoteSocketId with
  | some c, some rid =>
      if rid = "" then [] else [Msg.iceSend (some c) rid]
  | _, _ => []

/-- The socket / transport events page.tsx reacts to. -/
inductive Ev
  | start (r : Role)
  | remoteSocket (id : String)
  | negotiationNeeded
  | sdpReply (sdp : SDP)
  | iceReply (c : Option Candidate)

/-- Dispatch of one event to the corresponding page.tsx handler. -/
def stepEv (s : State) : Ev → State × List Msg
  | Ev.start r => (handleStart s r, [])
  | Ev.remoteSocket id => (handleRemoteSocket s id, [])
  | Ev.negotiationNeeded => handleNegotiationNeeded s
  | Ev.sdpReply sdp => handleSdpReply s sdp
  | Ev.iceReply c => (handleIceReply s c, [])

/-- Sequential processing of a list of events (socket.io delivers the
handlers' invocations serially), accumulating emitted messages. -/
def run (s : State) : List Ev → State × List Msg
  | [] => (s, [])
  | e :: es =>
      let p := stepEv s e
      let q := run p.1 es
      (q.1, p.2 ++ q.2)

end Page

namespace PartZero

/-- Component state of src/unnamed/part_000: `type` is a plain string
initialised to "", `remoteSocket` a ref initialised to "". -/
structure State where
  type : String := ""
  peer : Option PeerConn := none
  remoteSocket : String := ""
deriving DecidableEq

/-- setupWebRTC, part_000 lines 44-54 (installed as onnegotiationneeded):
only when type === "p1" and a peer exists does it create an offer,
install it locally and emit it. -/
def setupWebRTC (s : State) : State × List Msg :=
  match s.peer with
  | none => (s, [])
  | some pc =>
      if s.type = "p1" then
        let offer := pc.createOffer
        ({ s with peer := some (pc.setLocalDescription offer) },
         [Msg.sdpSend offer])
      else (s, [])

/-- peerRef.current.onicecandidate, part_000 lines 84-86: emits ice:send
unconditionally for every candidate event, the null end-of-candidates
marker included, addressed to remoteSocketRef.current (possibly ""). -/
def onIceCandidate (s : State) (candidate : Option Candidate) : List Msg :=
  [Msg.iceSend candidate s.remoteSocket]

end PartZero

namespace PartOne

/-- Socket connectivity status of src/unnamed/part_001. -/
inductive ConnStatus
  | disconnected
  | connecting
  | connected
deriving DecidableEq

/-- React state and refs of the component in src/unnamed/part_001. -/
structure State where
  remoteSocketId : Option String := none
  userType : Option Role := none
  connectionStatus : ConnStatus := ConnStatus.disconnected
  peer : Option PeerConn := none
  stream : Option MediaStream := none
  error : Option String := none
  nextStreamId : Nat := 0
deriving DecidableEq

/-- cleanup, part_001 lines 34-51: stops every track of the current
stream, closes and drops the peer, clears remote id, role and status.
Returns the new state together with the tracks stop() was called on. -/
def cleanup (s : State) : State × List Track :=
  ({ s with stream := none, peer := none, remoteSocketId := none,
            userType := none, connectionStatus := ConnStatus.disconnected },
   match s.stream with
   | some st => st.tracks
   | none => [])

/-- socket.on('disconnected'), part_001 lines 219-222: cleanup() then
setError('Partner disconnected'). -/
def handleDisconnected (s : State) : State :=
  { (cleanup s).1 with error := some ("Partner disconnected") }

/-- initializeWebRTC, part_001 lines 120-156: returns early without a
remote id; otherwise acquires media anew, builds a fresh
RTCPeerConnection, attaches the fresh tracks, and — only when
userType === 'p1' — creates, installs and emits an offer. -/
def initWebRTC (s : State) : State × List Msg :=
  match s.remoteSocketId with
  | none => (s, [])
  | some _ =>
      let stream := getUserMedia s.nextStreamId
      let pc : PeerConn := { attachedTracks := stream.tracks }
      let s1 := { s with stream := some stream, peer := some pc,
                         nextStreamId := s.nextStreamId + 1 }
      if s1.userType = some Role.p1 then
        let offer := pc.createOffer
        ({ s1 with peer := some (pc.setLocalDescription offer) },
         [Msg.sdpSend offer])
      else (s1, [])

/-- The effect of part_001 lines 237-241: runs whenever one of its
dependencies (remoteSocketId, userType, connectionStatus) changed, and
initialises WebRTC only when the remote id and role are both present and
the status is 'connected'. -/
def maybeInitWebRTC (s : State) : State × List Msg :=
  if s.remoteSocketId.isSome ∧ s.userType.isSome ∧
      s.connectionStatus = ConnStatus.connected
  then initWebRTC s else (s, [])

/-- The socket events part_001 reacts to (besides sdp/ice replies). -/
inductive Ev
  | connected
  | startAck (r : Role)
  | remoteSocket (id : String)
  | serverDisconnected

/-- The pure state change each part_001 socket handler performs:
'connect' sets status connected and clears the error (lines 167-170);
the start acknowledgment records the role and sets status 'connecting'
(lines 225-228); 'remote-socket' records the id (lines 182-184);
'disconnected' runs cleanup and sets the error (lines 219-222). -/
def handle (s : State) : Ev → State
  | Ev.connected =>
      { s with connectionStatus := ConnStatus.connected, error := none }
  | Ev.startAck r =>
      { s with userType := some r, connectionStatus := ConnStatus.connecting }
  | Ev.remoteSocket id => { s with remoteSocketId := some id }
  | Ev.serverDisconnected => handleDisconnected s

/-- The dependency triple watched by the part_001 effect. -/
def deps (s : State) : Option String × Option Role × ConnStatus :=
  (s.remoteSocketId, s.userType, s.connectionStatus)

/-- One event step with React effect semantics: the handler runs, and the
effect of lines 237-241 re-runs exactly when its dependency triple
changed. -/
def step (s : State) (e : Ev) : State × List Msg :=
  let s1 := handle s e
  if deps s1 = deps s then (s1, [])
  else maybeInitWebRTC s1

/-- Sequential processing of part_001 events, accumulating messages. -/
def runEvents (s : State) : List Ev → State × List Msg
  | [] => (s, [])
  | e :: es =>
      let p := step s e
      let q := runEvents p.1 es
      (q.1, p.2 ++ q.2)

end PartOne

namespace PartTwo

/-- WebRTCPeer state of src/unnamed/part_002
(src/src/app/types/socket-types.ts). -/
structure State where
  peer : Option PeerConn := none
  type : Option Role := none
  remoteSocket : Option String := none
  roomId : Option String := none
deriving DecidableEq

/-- start acknowledgment, part_002 lines 32-37: merges the received role
into the state, unconditionally. -/
def handleStart (s : State) (person : Role) : State :=
  { s with type := some person }

/-- handleSdpReply, part_002 lines 114-124: no try/catch — a rejected
setRemoteDescription or a failing answer step propagates out of the
handler as an error. -/
def handleSdpReply (s : State) (sdp : SDP) : Except String (State × List Msg) :=
  match s.peer with
  | none => Except.ok (s, [])
  | some pc =>
      match pc.setRemoteDescription sdp with
      | Except.error e => Except.error e
      | Except.ok pc1 =>
          if s.type = some Role.p2 then
            let ans := pc1.createAnswer
            Except.ok ({ s with peer := some (pc1.setLocalDescription ans) },
                       [Msg.sdpSend ans])
          else Except.ok ({ s with peer := some pc1 }, [])

/-- handleIceCandidate, part_002 lines 126-130: no try/catch — a rejected
addIceCandidate propagates out of the handler as an error. -/
def handleIceCandidate (s : State) (candidate : Option Candidate) :
    Except String State :=
  match s.peer, candidate with
  | some pc, some c =>
      match pc.addIceCandidate c with
      | Except.error e => Except.error e
      | Except.ok pc1 => Except.ok { s with peer := some pc1 }
  | _, _ => Except.ok s

/-- peerConnection.onnegotiationneeded, part_002 lines 75-81: only when
webrtcState.type === 'p1' does it create, install and emit an offer. -/
def onNegotiationNeeded (s : State) : State × List Msg :=
  match s.peer with
  | none => (s, [])
  | some pc =>
      if s.type = some Role.p1 then
        let offer := pc.createOffer
        ({ s with peer := some (pc.setLocalDescription offer) },
         [Msg.sdpSend offer])
      else (s, [])

end PartTwo

end VidChat

namespace VidChat

/-- C1: the claim says a candidate arriving before the remote description
is enqueued and later applied, so that in the spec's own scenario
(candidates c1 and c2 before the description, c3 after) all three end up
applied in arrival order exactly once. On the code that is false: running
the scenario, only c3 is applied — c1 and c2 were attempted at once, the
InvalidStateError was swallowed, and they were lost. -/
theorem C1_candidate_buffering_counterexample :
    ((Page.run {} [Page.Ev.start Role.p2, Page.Ev.remoteSocket ("A"),
        Page.Ev.iceReply (some { value := "c1" }),
        Page.Ev.iceReply (some { value := "c2" }),
        Page.Ev.sdpReply { content := "offer", malformed := false },
        Page.Ev.iceReply (some { value := "c3" })]).1.peer.map
          PeerConn.appliedCandidates) = some [{ value := "c3" }] ∧
    some [{ value := "c3" }] ≠
      some [({ value := "c1" } : Candidate), { value := "c2" },
            { value := "c3" }] := by
  constructor
  · decide
  · decide

/-- C1 amended: there is no CandidateBuffer. A candidate arriving while
the remote description is not installed is attempted immediately, the
rejection is swallowed and the candidate is discarded (the state is
unchanged, so nothing is retained for later); a candidate arriving after
the remote description is installed is applied exactly once, appended in
arrival order. -/
theorem C1_no_buffering_amended (s : Page.State) (pc : PeerConn)
    (c : Candidate) (hp : s.peer = some pc) :
    (pc.remoteDescription = none → Page.handleIceReply s (some c) = s) ∧
    (∀ d, pc.remoteDescription = some d →
      Page.handleIceReply s (some c) =
        { s with
          peer := some { pc with appliedCandidates := pc.appliedCandidates ++ [c] } }) := by
  constructor
  · intro hd
    simp [Page.handleIceReply, hp, PeerConn.addIceCandidate, hd]
  · intro d hd
    simp [Page.handleIceReply, hp, PeerConn.addIceCandidate, hd]

/-- Witness for C1 amended at a concrete fresh peer and candidate. -/
theorem C1_no_buffering_amended_witness :
    ({ peer := some {} } : Page.State).peer = some ({} : PeerConn) ∧
    ({} : PeerConn).remoteDescription = none ∧
    Page.handleIceReply { peer := some {} } (some { value := "x" }) =
      { peer := some {} } :=
  ⟨rfl, rfl,
    (C1_no_buffering_amended { peer := some {} } {} { value := "x" } rfl).1 rfl⟩

/-- C2: only a client whose assigned role is 'p1' (Leader) ever
spontaneously creates and sends an offer from a negotiation-needed
trigger; in each variant that installs such a trigger, a client whose
role is not 'p1' leaves the state unchanged and emits nothing. -/
theorem C2_leader_only_initiates (s : Page.State) (t : PartZero.State)
    (u : PartTwo.State) (hs : s.userType ≠ some Role.p1)
    (ht : t.type ≠ "p1") (hu : u.type ≠ some Role.p1) :
    Page.handleNegotiationNeeded s = (s, []) ∧
    PartZero.setupWebRTC t = (t, []) ∧
    PartTwo.onNegotiationNeeded u = (u, []) := by
  refine ⟨?_, ?_, ?_⟩
  · unfold Page.handleNegotiationNeeded
    cases s.peer <;> simp [hs]
  · unfold PartZero.setupWebRTC
    cases t.peer <;> simp [ht]
  · unfold PartTwo.onNegotiationNeeded
    cases u.peer <;> simp [hu]

/-- Witness for C2 at concrete follower states with live connections. -/
theorem C2_leader_only_initiates_witness :
    (({ userType := some Role.p2, peer := some {} } : Page.State).userType ≠
      some Role.p1) ∧
    Page.handleNegotiationNeeded { userType := some Role.p2, peer := some {} } =
      ({ userType := some Role.p2, peer := some {} }, []) :=
  ⟨by decide,
    (C2_leader_only_initiates
      { userType := some Role.p2, peer := some {} }
      { type := "p2", peer := some {} }
      { type := some Role.p2, peer := some {} }
      (by decide) (by decide) (by decide)).1⟩

/-- C3: the claim says a repeated negotiation-needed trigger while an
offer is pending is a no-op, so exactly one offer is sent. On the code
that is false: two consecutive triggers on a leader with a live
connection send two offers. -/
theorem C3_duplicate_offer_counterexample :
    (Page.run { userType := some Role.p1, peer := some {} }
        [Page.Ev.negotiationNeeded, Page.Ev.negotiationNeeded]).2 =
      [Msg.sdpSend { content := "offer", malformed := false },
       Msg.sdpSend { content := "offer", malformed := false }] := by
  decide

/-- C3 amended: there is no pending-offer guard. Every negotiation-needed
trigger on a leader with a live connection creates and sends one offer,
so n triggers before completion send exactly n offers (one per trigger,
not one per negotiation attempt). -/
theorem C3_offer_per_trigger_amended (n : Nat) (s : Page.State)
    (pc : PeerConn) (hr : s.userType = some Role.p1) (hp : s.peer = some pc) :
    ((Page.run s (List.replicate n Page.Ev.negotiationNeeded)).2).length = n := by
  induction n generalizing s pc with
  | zero => simp [Page.run]
  | succ n ih =>
      rw [List.replicate_succ]
      have hstep : Page.stepEv s Page.Ev.negotiationNeeded =
          ({ s with peer := some (pc.setLocalDescription pc.createOffer) },
           [Msg.sdpSend pc.createOffer]) := by
        simp [Page.stepEv, Page.handleNegotiationNeeded, hp, hr]
      simp only [Page.run, hstep, List.length_append, List.length_singleton]
      rw [ih { s with peer := some (pc.setLocalDescription pc.createOffer) }
        (pc.setLocalDescription pc.createOffer) hr rfl]
      omega

/-- Witness for C3 amended: three triggers from a concrete leader state
send three offers. -/
theorem C3_offer_per_trigger_amended_witness :
    ({ userType := some Role.p1, peer := some {} } : Page.State).userType =
      some Role.p1 ∧
    ((Page.run { userType := some Role.p1, peer := some {} }
        (List.replicate 3 Page.Ev.negotiationNeeded)).2).length = 3 :=
  ⟨rfl, C3_offer_per_trigger_amended 3
    { userType := some Role.p1, peer := some {} } {} rfl rfl⟩

/-- C4: the claim says the arrival orders of role assignment and peer
matching are interchangeable and negotiation is deferred until the role
is known. On page.tsx that is false: the peer connection is built
immediately on 'remote-socket', a negotiation-needed trigger before the
role is known sends nothing, and the role arriving afterwards does not
retrigger negotiation — so the peer-first order never offers while the
role-first order does. -/
theorem C4_order_dependence_counterexample :
    (Page.run {} [Page.Ev.remoteSocket ("A"), Page.Ev.negotiationNeeded,
        Page.Ev.start Role.p1]).2 = [] ∧
    (Page.run {} [Page.Ev.start Role.p1, Page.Ev.remoteSocket ("A"),
        Page.Ev.negotiationNeeded]).2 =
      [Msg.sdpSend { content := "offer", malformed := false }] := by
  constructor
  · decide
  · decide

/-- C4 amended: only the part_001 variant tolerates both orders, and it
does so by doing nothing in either: from a state with no role yet,
delivering the start acknowledgment and the remote-socket event in
either order yields identical final state and messages (none — the
initialization effect also requires a 'connected' status, which the start
acknowledgment itself resets to 'connecting'). In page.tsx the two orders
genuinely differ (see the counterexample). -/
theorem C4_partOne_order_commutes_amended (s : PartOne.State) (r : Role)
    (id : String) (h : s.userType = none) :
    PartOne.runEvents s [PartOne.Ev.startAck r, PartOne.Ev.remoteSocket id] =
      PartOne.runEvents s [PartOne.Ev.remoteSocket id, PartOne.Ev.startAck r] := by
  by_cases hid : s.remoteSocketId = some id <;>
    simp [PartOne.runEvents, PartOne.step, PartOne.handle, PartOne.deps,
          PartOne.maybeInitWebRTC, h, hid]

/-- Witness for C4 amended at the initial part_001 state. -/
theorem C4_partOne_order_commutes_amended_witness :
    ({} : PartOne.State).userType = none ∧
    PartOne.runEvents {} [PartOne.Ev.startAck Role.p1,
        PartOne.Ev.remoteSocket ("A")] =
      PartOne.runEvents {} [PartOne.Ev.remoteSocket ("A"),
        PartOne.Ev.startAck Role.p1] :=
  ⟨rfl, C4_partOne_order_commutes_amended {} Role.p1 ("A") rfl⟩

/-- C5: tearing a session down on peer loss (part_001's 'disconnected'
handler) drops the transport connection and the media stream and clears
the remote id and role; and a session set up afterwards builds its
transport connection from scratch, so it observes no candidate,
description or connection state of the prior session. Received candidates
are never stored anywhere outside the connection itself (there is no
buffer, cf. C1), so no buffered candidate can survive either. -/
theorem C5_teardown_fresh_session (s : PartOne.State) :
    (PartOne.handleDisconnected s).peer = none ∧
    (PartOne.handleDisconnected s).stream = none ∧
    (PartOne.handleDisconnected s).remoteSocketId = none ∧
    (PartOne.handleDisconnected s).userType = none ∧
    ∀ id : String, ∃ pc : PeerConn,
      ((PartOne.initWebRTC (PartOne.handle (PartOne.handleDisconnected s)
          (PartOne.Ev.remoteSocket id))).1).peer = some pc ∧
        pc.remoteDescription = none ∧ pc.localDescription = none ∧
        pc.appliedCandidates = [] := by
  refine ⟨rfl, rfl, rfl, rfl, ?_⟩
  intro id
  refine ⟨{ attachedTracks := (getUserMedia s.nextStreamId).tracks }, ?_, rfl, rfl, rfl⟩
  simp [PartOne.initWebRTC, PartOne.handle, PartOne.handleDisconnected,
        PartOne.cleanup]

/-- C6: the claim says a conflicting second role assignment leaves the
first-assigned role intact. On the code that is false: the start
acknowledgment callback stores the received value unconditionally, so a
second assignment with a different value overwrites the first. -/
theorem C6_role_overwrite_counterexample :
    (Page.handleStart (Page.handleStart {} Role.p1) Role.p2).userType =
      some Role.p2 ∧
    some Role.p2 ≠ some Role.p1 := by
  constructor
  · rfl
  · decide

/-- C6 amended: role assignment is a plain unconditional store. A second
assignment with the same value is an idempotent no-op; a second
assignment with a conflicting value overwrites the first (no conflict
detection or logging exists); either way the handler touches nothing but
the role field, so it cannot crash and does not alter the connection,
the remote id, the stream or the error status. The part_002 variant
behaves the same. -/
theorem C6_role_assignment_amended (s : Page.State) (t : PartTwo.State)
    (r r' : Role) :
    Page.handleStart (Page.handleStart s r) r = Page.handleStart s r ∧
    (Page.handleStart (Page.handleStart s r) r').userType = some r' ∧
    (Page.handleStart s r).peer = s.peer ∧
    (Page.handleStart s r).remoteSocketId = s.remoteSocketId ∧
    (Page.handleStart s r).stream = s.stream ∧
    (Page.handleStart s r).error = s.error ∧
    PartTwo.handleStart (PartTwo.handleStart t r) r = PartTwo.handleStart t r ∧
    (PartTwo.handleStart (PartTwo.handleStart t r) r').type = some r' ∧
    (PartTwo.handleStart t r).peer = t.peer :=
  ⟨rfl, rfl, rfl, rfl, rfl, rfl, rfl, rfl, rfl⟩

/-- C7: on a well-formed remote description with a live connection, a
follower ('p2') installs it as the remote description, immediately
creates an answer, installs the answer as the local description and sends
exactly that answer; a leader ('p1') installs the remote description,
leaves its local description untouched and sends nothing. -/
theorem C7_sdp_reply_role_behaviour (s : Page.State) (pc : PeerConn)
    (sdp : SDP) (hp : s.peer = some pc) (hm : sdp.malformed = false) :
    (s.userType = some Role.p2 → ∃ pc' : PeerConn,
      (Page.handleSdpReply s sdp).1.peer = some pc' ∧
      pc'.remoteDescription = some sdp ∧
      pc'.localDescription = some (PeerConn.createAnswer pc) ∧
      (Page.handleSdpReply s sdp).2 =
        [Msg.sdpSend (PeerConn.createAnswer pc)]) ∧
    (s.userType = some Role.p1 → ∃ pc' : PeerConn,
      (Page.handleSdpReply s sdp).1.peer = some pc' ∧
      pc'.remoteDescription = some sdp ∧
      pc'.localDescription = pc.localDescription ∧
      (Page.handleSdpReply s sdp).2 = []) := by
  constructor
  · intro hrole
    refine ⟨({ pc with remoteDescription := some sdp }).setLocalDescription
      (PeerConn.createAnswer pc), ?_, rfl, rfl, ?_⟩ <;>
      simp [Page.handleSdpReply, hp, PeerConn.setRemoteDescription, hm, hrole,
            PeerConn.setLocalDescription, PeerConn.createAnswer]
  · intro hrole
    refine ⟨{ pc with remoteDescription := some sdp }, ?_, rfl, rfl, ?_⟩ <;>
      simp [Page.handleSdpReply, hp, PeerConn.setRemoteDescription, hm, hrole]

/-- Witness for C7 at a concrete follower receiving a well-formed offer. -/
theorem C7_sdp_reply_role_behaviour_witness :
    ({ peer := some {}, userType := some Role.p2 } : Page.State).peer =
      some ({} : PeerConn) ∧
    ({ content := "offer", malformed := false } : SDP).malformed = false ∧
    ∃ pc' : PeerConn,
      (Page.handleSdpReply { peer := some {}, userType := some Role.p2 }
        { content := "offer", malformed := false }).1.peer = some pc' ∧
      pc'.remoteDescription = some { content := "offer", malformed := false } ∧
      pc'.localDescription = some (PeerConn.createAnswer {}) ∧
      (Page.handleSdpReply { peer := some {}, userType := some Role.p2 }
        { content := "offer", malformed := false }).2 =
        [Msg.sdpSend (PeerConn.createAnswer {})] :=
  ⟨rfl, rfl,
    (C7_sdp_reply_role_behaviour
      { peer := some {}, userType := some Role.p2 } {}
      { content := "offer", malformed := false } rfl rfl).1 rfl⟩

/-- C8: the claim says every error raised by an incoming description or
candidate is handled inside the session and never thrown across the
handler boundary. On the part_002 variant that is false: its sdp:reply
handler has no try/catch, so a rejected description propagates out of
the handler as an error, and no status is surfaced (its state has no
error field at all). -/
theorem C8_error_escapes_counterexample :
    PartTwo.handleSdpReply { peer := some {} }
        { content := "bad", malformed := true } =
      Except.error ("InvalidSdp") := rfl

/-- C8 amended: error locality holds only in the page.tsx variant, where
a rejected remote description is caught and surfaced via the error
status with nothing emitted, and a rejected candidate is swallowed
leaving the state unchanged. In the part_002 variant the same two
failures propagate out of the sdp:reply and ice:reply handlers as
errors. -/
theorem C8_error_locality_amended (s : Page.State) (pc : PeerConn)
    (sdp : SDP) (c : Candidate) (t : PartTwo.State) (qc : PeerConn)
    (hp : s.peer = some pc) (hm : sdp.malformed = true)
    (hd : pc.remoteDescription = none)
    (ht : t.peer = some qc) (hq : qc.remoteDescription = none) :
    Page.handleSdpReply s sdp =
      ({ s with error := some ("Failed to establish connection. Please try again.") },
       []) ∧
    Page.handleIceReply s (some c) = s ∧
    PartTwo.handleSdpReply t sdp = Except.error ("InvalidSdp") ∧
    PartTwo.handleIceCandidate t (some c) =
      Except.error ("InvalidStateError") := by
  refine ⟨?_, ?_, ?_, ?_⟩
  · simp [Page.handleSdpReply, hp, PeerConn.setRemoteDescription, hm]
  · simp [Page.handleIceReply, hp, PeerConn.addIceCandidate, hd]
  · simp [PartTwo.handleSdpReply, ht, PeerConn.setRemoteDescription, hm]
  · simp [PartTwo.handleIceCandidate, ht, PeerConn.addIceCandidate, hq]

/-- Witness for C8 amended at concrete states: a fresh connection, a
malformed description and a candidate arriving before any description. -/
theorem C8_error_locality_amended_witness :
    ({ peer := some {} } : Page.State).peer = some ({} : PeerConn) ∧
    ({ content := "bad", malformed := true } : SDP).malformed = true ∧
    Page.handleSdpReply { peer := some {} }
        { content := "bad", malformed := true } =
      ({ peer := some {},
         error := some ("Failed to establish connection. Please try again.") },
       []) :=
  ⟨rfl, rfl,
    (C8_error_locality_amended { peer := some {} } {}
      { content := "bad", malformed := true } { value := "x" }
      { peer := some {} } {} rfl rfl rfl rfl rfl).1⟩

/-- C9: the claim says session teardown does not stop the local media
tracks and capture is acquired once per client lifetime. On the code
that is false: cleanup calls stop() on every track of the current stream
and drops it. -/
theorem C9_tracks_stopped_counterexample :
    (Page.cleanup { stream := some (getUserMedia 0) }).2 =
      [{ id := 0 }, { id := 1 }] ∧
    (Page.cleanup { stream := some (getUserMedia 0) }).1.stream = none ∧
    ([({ id := 0 } : Track), { id := 1 }] ≠ ([] : List Track)) := by
  refine ⟨rfl, rfl, by decide⟩

/-- C9 amended: teardown stops every track of the current stream and
drops the stream, and initializePeerConnection re-acquires media through
getUserMedia on every call, so each new transport connection receives a
freshly created stream (a later acquisition is never the same stream as
an earlier one). -/
theorem C9_media_lifecycle_amended (s : Page.State) (st : MediaStream)
    (h : s.stream = some st) :
    (Page.cleanup s).2 = st.tracks ∧
    (Page.cleanup s).1.stream = none ∧
    (Page.initPeerConnection s).stream = some (getUserMedia s.nextStreamId) ∧
    (Page.initPeerConnection s).nextStreamId = s.nextStreamId + 1 ∧
    (Page.initPeerConnection
        (Page.cleanup (Page.initPeerConnection s)).1).stream ≠
      (Page.initPeerConnection s).stream := by
  refine ⟨?_, rfl, rfl, rfl, ?_⟩
  · simp [Page.cleanup, h]
  · simp [Page.initPeerConnection, Page.cleanup, getUserMedia]

/-- Witness for C9 amended at a concrete state holding a live stream. -/
theorem C9_media_lifecycle_amended_witness :
    ({ stream := some (getUserMedia 0) } : Page.State).stream =
      some (getUserMedia 0) ∧
    (Page.cleanup { stream := some (getUserMedia 0) }).2 =
      (getUserMedia 0).tracks :=
  ⟨rfl, (C9_media_lifecycle_amended { stream := some (getUserMedia 0) }
    (getUserMedia 0) rfl).1⟩

/-- C10: the claim says a locally discovered candidate is forwarded only
when it is non-null and a remote peer id is recorded. On the part_000
variant that is false: its onicecandidate handler forwards every
candidate event unconditionally — here the null end-of-candidates marker,
addressed to the initial empty remote id, is emitted anyway. -/
theorem C10_null_candidate_forwarded_counterexample :
    PartZero.onIceCandidate {} none = [Msg.iceSend none ("")] := rfl

/-- C10 amended: the guard exists only in the page.tsx variant, where a
candidate is forwarded exactly when it is non-null and the recorded
remote id is non-null and non-empty, and is otherwise silently discarded
(the handler keeps no state, so nothing is ever buffered for later); the
part_000 variant forwards every candidate event unconditionally,
null candidates and an empty remote id included. -/
theorem C10_candidate_forwarding_amended (s : Page.State)
    (t : PartZero.State) (c : Candidate) (rid : String)
    (hr : s.remoteSocketId = some rid) (hne : rid ≠ "") :
    Page.onIceCandidate s (some c) = [Msg.iceSend (some c) rid] ∧
    Page.onIceCandidate s none = [] ∧
    (∀ u : Page.State, u.remoteSocketId = none →
      ∀ c' : Candidate, Page.onIceCandidate u (some c') = []) ∧
    (∀ u : Page.State, u.remoteSocketId = some ("") →
      ∀ c' : Candidate, Page.onIceCandidate u (some c') = []) ∧
    (∀ cand : Option Candidate,
      PartZero.onIceCandidate t cand = [Msg.iceSend cand t.remoteSocket]) := by
  refine ⟨?_, ?_, ?_, ?_, fun cand => rfl⟩
  · simp [Page.onIceCandidate, hr, hne]
  · simp [Page.onIceCandidate]
  · intro u hu c'
    simp [Page.onIceCandidate, hu]
  · intro u hu c'
    simp [Page.onIceCandidate, hu]

/-- Witness for C10 amended at a concrete state with a recorded remote
id. -/
theorem C10_candidate_forwarding_amended_witness :
    ({ remoteSocketId := some ("B") } : Page.State).remoteSocketId =
      some ("B") ∧ ("B" : String) ≠ ("") ∧
    Page.onIceCandidate { remoteSocketId := some ("B") }
        (some { value := "x" }) =
      [Msg.iceSend (some { value := "x" }) ("B")] :=
  ⟨rfl, by decide,
    (C10_candidate_forwarding_amended { remoteSocketId := some ("B") } {}
      { value := "x" } ("B") rfl (by decide)).1⟩

end VidChat
